import Mathlib

/-!
Verification of the noctua document/viewport engine.

This file gives a shallow embedding, in Lean 4, of the parts of the engine
that the specification's testable properties speak about:

* the pixel-buffer model and the pixel transforms of the `image` crate that
  the engine uses (`rotate90/180/270`, `flip_horizontal/vertical`, `crop_imm`),
* `RasterDocument` (src/domain/document/types/raster.rs),
* `VectorDocument` (src/domain/document/types/vector.rs),
* the transform state machine (src/domain/document/core/document.rs),
* the high-level transform operations (src/domain/document/operations/transform.rs),
* `Viewport` (src/domain/viewport/viewport.rs),
* the crop mapper (src/application/commands/crop_document.rs),
* `DocumentCollection` (src/domain/document/collection.rs),
* the fit-scale helpers (src/domain/document/operations/render.rs).

Rust `f32`/`f64` values are modelled as exact rationals (`ℚ`): the
specification states its coordinate round-trip property "within
floating-point tolerance", which is the idealized real-number semantics
embedded here.  Rust `u32`/`usize` are modelled as `Nat` (no arithmetic in
the modelled code paths can overflow 32 bits for realistic image sizes, and
the modelled operations use only comparisons, saturating subtraction via
`Nat.sub`, `min`, and indexing), `i16` degree arithmetic as `Int` with
Rust's truncated `%` (`Int.tmod`).
-/

namespace Noctua

/-- An RGBA8 pixel, abstracted to a single value.  The engine never inspects
channel structure in the modelled operations, so one `Nat` per pixel keeps
the pixel-level equalities faithful. -/
abbrev Pixel := Nat

/-- Model of `image::DynamicImage`: a width, a height, and a row-major pixel
buffer. -/
structure Image where
  width : Nat
  height : Nat
  data : List Pixel
deriving Repr, DecidableEq

/-- Build an image of the given size from a pixel-generator function
(row-major, index `i` holds pixel `(i % w, i / w)`). -/
def mkImage (w h : Nat) (f : Nat → Nat → Pixel) : Image :=
  ⟨w, h, (List.range (w * h)).map (fun i => f (i % w) (i / w))⟩

/-- Pixel accessor (0 outside the buffer). -/
def Image.pixel (img : Image) (x y : Nat) : Pixel :=
  img.data.getD (y * img.width + x) 0

/-- A well-formed image: the buffer holds exactly `width * height` pixels.
Every image produced by the `image` crate (and by `mkImage`) satisfies this. -/
def Image.wf (img : Image) : Prop :=
  img.data.length = img.width * img.height

instance (img : Image) : Decidable img.wf := by
  unfold Image.wf; infer_instance

/-- `image::imageops::flip_horizontal`: mirror left-right. -/
def flipHorizontal (img : Image) : Image :=
  mkImage img.width img.height (fun x y => img.pixel (img.width - 1 - x) y)

/-- `image::imageops::flip_vertical`: mirror top-bottom. -/
def flipVertical (img : Image) : Image :=
  mkImage img.width img.height (fun x y => img.pixel x (img.height - 1 - y))

/-- `image::imageops::rotate90` (clockwise): destination `(x, y)` reads
source `(y, h - 1 - x)`; dimensions swap. -/
def rotate90 (img : Image) : Image :=
  mkImage img.height img.width (fun x y => img.pixel y (img.height - 1 - x))

/-- `image::imageops::rotate180`. -/
def rotate180 (img : Image) : Image :=
  mkImage img.width img.height (fun x y => img.pixel (img.width - 1 - x) (img.height - 1 - y))

/-- `image::imageops::rotate270` (counter-clockwise): destination `(x, y)`
reads source `(w - 1 - y, x)`; dimensions swap. -/
def rotate270 (img : Image) : Image :=
  mkImage img.height img.width (fun x y => img.pixel (img.width - 1 - y) x)

/-- `image::DynamicImage::crop_imm`: extract the sub-rectangle, clamped to
the image bounds (the crate clamps `width`/`height` so the rectangle stays
inside the buffer; `Nat` subtraction reproduces the saturation). -/
def cropImm (img : Image) (x y w h : Nat) : Image :=
  let cw := min w (img.width - x)
  let ch := min h (img.height - y)
  mkImage cw ch (fun i j => img.pixel (x + i) (y + j))

-- ============================================================================
-- Transform state machine (src/domain/document/core/document.rs)
-- ============================================================================

/-- `Rotation`: quantized rotation state. -/
inductive Rotation where
  | none
  | cw90
  | cw180
  | cw270
deriving Repr, DecidableEq

instance : Inhabited Rotation := ⟨.none⟩

/-- `Rotation::rotate_cw`. -/
def Rotation.rotateCw : Rotation → Rotation
  | .none => .cw90
  | .cw90 => .cw180
  | .cw180 => .cw270
  | .cw270 => .none

/-- `Rotation::rotate_ccw`. -/
def Rotation.rotateCcw : Rotation → Rotation
  | .none => .cw270
  | .cw270 => .cw180
  | .cw180 => .cw90
  | .cw90 => .none

/-- `Rotation::to_degrees` (an `i16` in the source). -/
def Rotation.toDegrees : Rotation → Int
  | .none => 0
  | .cw90 => 90
  | .cw180 => 180
  | .cw270 => 270

/-- `RotationMode`: standard 90° steps or fine-grained rotation. -/
inductive RotationMode where
  | standard (r : Rotation)
  | fine (deg : ℚ)
deriving Repr, DecidableEq

instance : Inhabited RotationMode := ⟨.standard .none⟩

/-- `RotationMode::rotate_cw`. -/
def RotationMode.rotateCw : RotationMode → RotationMode
  | .standard r => .standard r.rotateCw
  | .fine deg => .fine ((deg + 90) % 360)

/-- `RotationMode::rotate_ccw`. -/
def RotationMode.rotateCcw : RotationMode → RotationMode
  | .standard r => .standard r.rotateCcw
  | .fine deg => .fine ((deg - 90 + 360) % 360)

/-- `TransformState`: rotation mode plus the two flip flags. -/
structure TransformState where
  rotation : RotationMode
  flip_h : Bool
  flip_v : Bool
deriving Repr, DecidableEq

instance : Inhabited TransformState := ⟨⟨.standard .none, false, false⟩⟩

/-- `TransformState::default()`. -/
def TransformState.default : TransformState := ⟨.standard .none, false, false⟩

/-- `FlipDirection`. -/
inductive FlipDirection where
  | horizontal
  | vertical
deriving Repr, DecidableEq

/-- `InterpolationQuality`. -/
inductive InterpolationQuality where
  | fast
  | balanced
  | best
deriving Repr, DecidableEq

instance : Inhabited InterpolationQuality := ⟨.balanced⟩

/-- `cosmic::widget::image::Handle` as produced by `Handle::from_rgba(width,
height, pixels)`: the engine only ever builds handles from a width, a height
and the RGBA byte buffer of an image. -/
structure ImageHandle where
  width : Nat
  height : Nat
  pixels : List Pixel
deriving Repr, DecidableEq

/-- `create_image_handle_from_image` (raster.rs / render.rs): handle built
from the image's dimensions and RGBA8 buffer. -/
def createImageHandleFromImage (img : Image) : ImageHandle :=
  ⟨img.width, img.height, img.data⟩

/-- Dispatch `apply_rotation` (transform.rs lines 53-62 / raster.rs): apply a
quantized pixel rotation. -/
def applyRotation (img : Image) : Rotation → Image
  | .none => img
  | .cw90 => rotate90 img
  | .cw180 => rotate180 img
  | .cw270 => rotate270 img

/-- Dispatch `apply_flip` (transform.rs lines 69-76 / raster.rs). -/
def applyFlip (img : Image) : FlipDirection → Image
  | .horizontal => flipHorizontal img
  | .vertical => flipVertical img

-- ============================================================================
-- RasterDocument (src/domain/document/types/raster.rs)
-- ============================================================================

/-- `RasterDocument`. -/
structure RasterDocument where
  document : Image
  native_width : Nat
  native_height : Nat
  transform : TransformState
  handle : ImageHandle
  fine_rotation_angle : ℚ
  interpolation_quality : InterpolationQuality
deriving Repr, DecidableEq

/-- `RasterDocument::dimensions`: the current pixel dimensions. -/
def RasterDocument.dimensions (d : RasterDocument) : Nat × Nat :=
  (d.document.width, d.document.height)

/-- The error message of the out-of-bounds arm of `RasterDocument::crop`
(raster.rs lines 101-104). -/
def cropOutOfBoundsMsg (x y imgWidth imgHeight : Nat) : String :=
  s!"Crop region ({x}, {y}) is outside image bounds ({imgWidth}, {imgHeight})"

/-- `RasterDocument::crop` (raster.rs lines 96-130).  The Rust method mutates
`&mut self` and returns `Result<(), String>`; the embedding passes the state
explicitly and returns the document after the call together with the result.
Validation happens before any mutation, so in the error cases the returned
document is the input unchanged, exactly as in the source. -/
def RasterDocument.crop (d : RasterDocument) (x y width height : Nat) :
    RasterDocument × Except String Unit :=
  let imgWidth := d.document.width
  let imgHeight := d.document.height
  if x ≥ imgWidth ∨ y ≥ imgHeight then
    (d, .error (cropOutOfBoundsMsg x y imgWidth imgHeight))
  else
    let cropWidth := min width (imgWidth - x)
    let cropHeight := min height (imgHeight - y)
    if cropWidth = 0 ∨ cropHeight = 0 then
      (d, .error "Crop region has zero width or height")
    else
      let newDoc := cropImm d.document x y cropWidth cropHeight
      ({ document := newDoc
         native_width := cropWidth
         native_height := cropHeight
         transform := TransformState.default
         handle := createImageHandleFromImage newDoc
         fine_rotation_angle := 0
         interpolation_quality := d.interpolation_quality }, .ok ())

/-- `<RasterDocument as Transformable>::rotate` (raster.rs lines 276-306):
computes the delta between the requested quantized rotation and the currently
applied one and applies only that incremental pixel rotation.  A fine-angle
state is cleared and treated as 0°.  The `unreachable!` arm of the source
(delta not in {90, 180, 270}) is modelled as leaving the pixels unchanged;
it is provably dead. -/
def RasterDocument.rotate (d : RasterDocument) (rotation : Rotation) : RasterDocument :=
  let currentAndFra : Int × ℚ :=
    match d.transform.rotation with
    | .standard r => (r.toDegrees, d.fine_rotation_angle)
    | .fine _ => (0, 0)
  let newDeg := rotation.toDegrees
  let diffDeg := (newDeg - currentAndFra.1 + 360).tmod 360
  let newDoc :=
    if diffDeg = 90 then applyRotation d.document .cw90
    else if diffDeg = 180 then applyRotation d.document .cw180
    else if diffDeg = 270 then applyRotation d.document .cw270
    else d.document
  { d with
    document := newDoc
    transform := { d.transform with rotation := .standard rotation }
    fine_rotation_angle := currentAndFra.2
    handle := createImageHandleFromImage newDoc }

/-- `<RasterDocument as Transformable>::flip` (raster.rs lines 308-318). -/
def RasterDocument.flip (d : RasterDocument) (direction : FlipDirection) : RasterDocument :=
  let newDoc := applyFlip d.document direction
  { d with
    document := newDoc
    transform :=
      match direction with
      | .horizontal => { d.transform with flip_h := !d.transform.flip_h }
      | .vertical => { d.transform with flip_v := !d.transform.flip_v }
    handle := createImageHandleFromImage newDoc }

-- ============================================================================
-- VectorDocument (src/domain/document/types/vector.rs)
-- ============================================================================

/-- The external rasterizer for a parsed vector scene
(`resvg::render` followed by `pixmap_to_dynamic_image`): deterministic in the
scene and the scale, abstracted as the pixel value at each position for a
given scale. -/
abbrev Scene := ℚ → Nat → Nat → Pixel

/-- `render_document` (vector.rs lines 252-305): rasterize at
`ceil(native * scale)` (at least `MIN_PIXMAP_SIZE = 1`), then apply the flips,
then the quantized rotation; a fine-angle rotation is rendered unrotated
(source TODO). -/
def renderDocument (scene : Scene) (nativeWidth nativeHeight : Nat) (scale : ℚ)
    (transform : TransformState) : Image :=
  let w := max ((nativeWidth * scale).ceil.toNat) 1
  let h := max ((nativeHeight * scale).ceil.toNat) 1
  let base := mkImage w h (scene scale)
  let flippedH := if transform.flip_h then applyFlip base .horizontal else base
  let flippedV := if transform.flip_v then applyFlip flippedH .vertical else flippedH
  match transform.rotation with
  | .standard rotation => applyRotation flippedV rotation
  | .fine _ => flippedV

/-- `VectorDocument`. -/
structure VectorDocument where
  scene : Scene
  native_width : Nat
  native_height : Nat
  current_scale : ℚ
  transform : TransformState
  rendered : Image
  handle : ImageHandle
  width : Nat
  height : Nat

/-- `VectorDocument::rerender` (vector.rs lines 186-199): re-render with the
current scale and transform and refresh the derived fields. -/
def VectorDocument.rerender (v : VectorDocument) : VectorDocument :=
  let rendered :=
    renderDocument v.scene v.native_width v.native_height v.current_scale v.transform
  { v with
    rendered := rendered
    width := rendered.width
    height := rendered.height
    handle := createImageHandleFromImage rendered }

/-- `<VectorDocument as Transformable>::rotate` (vector.rs lines 233-236). -/
def VectorDocument.rotate (v : VectorDocument) (rotation : Rotation) : VectorDocument :=
  VectorDocument.rerender
    { v with transform := { v.transform with rotation := .standard rotation } }

/-- `<VectorDocument as Transformable>::flip` (vector.rs lines 238-244). -/
def VectorDocument.flip (v : VectorDocument) (direction : FlipDirection) : VectorDocument :=
  VectorDocument.rerender
    { v with
      transform :=
        match direction with
        | .horizontal => { v.transform with flip_h := !v.transform.flip_h }
        | .vertical => { v.transform with flip_v := !v.transform.flip_v } }

-- ============================================================================
-- Paginated document (types/portable.rs is not in the sources)
-- ============================================================================

/-- Modelled from the spec: the paginated (`Portable`) document type.  The
file `src/domain/document/types/portable.rs` is declared in `types/mod.rs`
but absent from the sources.  Per spec §3 it owns a handle to the backing
document, the current page index, the total page count; per spec §4.2 its
`rotate`/`flip` have the "same contract as Vector (state + re-render of
current page)", with the render pipeline (render at scale, then flips, then
quantized rotation) matching the raster application order.  The per-page
rasterizer of the backing document is abstracted as `pageScene`. -/
structure PortableDocument where
  pageScene : Nat → Scene
  page_count : Nat
  current_page : Nat
  native_width : Nat
  native_height : Nat
  current_scale : ℚ
  transform : TransformState
  rendered : Image
  handle : ImageHandle
  width : Nat
  height : Nat

/-- Modelled from the spec: re-render the current page with the current scale
and transform (spec §4.2, same pipeline as `render_document` for vector). -/
def PortableDocument.rerender (p : PortableDocument) : PortableDocument :=
  let rendered :=
    renderDocument (p.pageScene p.current_page) p.native_width p.native_height
      p.current_scale p.transform
  { p with
    rendered := rendered
    width := rendered.width
    height := rendered.height
    handle := createImageHandleFromImage rendered }

/-- Modelled from the spec: `rotate` for the paginated variant ("same
contract as Vector: state + re-render of current page", spec §4.2). -/
def PortableDocument.rotate (p : PortableDocument) (rotation : Rotation) : PortableDocument :=
  PortableDocument.rerender
    { p with transform := { p.transform with rotation := .standard rotation } }

/-- Modelled from the spec: `flip` for the paginated variant ("same contract
as Vector", spec §4.2). -/
def PortableDocument.flip (p : PortableDocument) (direction : FlipDirection) : PortableDocument :=
  PortableDocument.rerender
    { p with
      transform :=
        match direction with
        | .horizontal => { p.transform with flip_h := !p.transform.flip_h }
        | .vertical => { p.transform with flip_v := !p.transform.flip_v } }

-- ============================================================================
-- DocumentContent (core/content.rs is not in the sources)
-- ============================================================================

/-- Modelled from the spec: `DocumentKind`, the tag of the three document
variants (`src/domain/document/core/content.rs` is declared in `core/mod.rs`
but absent from the sources; spec §3 fixes exactly three variants
Raster / Vector / Paginated, and `crop_document.rs` compares
`doc.kind()` against `DocumentKind::Raster`). -/
inductive DocumentKind where
  | raster
  | vector
  | portable
deriving Repr, DecidableEq

/-- Modelled from the spec: `DocumentContent`, the closed tagged-variant
document type (spec §3 and §9; `crop_document.rs` pattern-matches
`DocumentContent::Raster(raster)`). -/
inductive DocumentContent where
  | raster (d : RasterDocument)
  | vector (v : VectorDocument)
  | portable (p : PortableDocument)

/-- Modelled from the spec: `DocumentContent::kind`. -/
def DocumentContent.kind : DocumentContent → DocumentKind
  | .raster _ => .raster
  | .vector _ => .vector
  | .portable _ => .portable

/-- `Transformable::transform_state` dispatched over the variants (each
variant returns its `transform` field). -/
def DocumentContent.transformState : DocumentContent → TransformState
  | .raster d => d.transform
  | .vector v => v.transform
  | .portable p => p.transform

/-- `Transformable::rotate` dispatched over the variants. -/
def DocumentContent.rotate : DocumentContent → Rotation → DocumentContent
  | .raster d, r => .raster (d.rotate r)
  | .vector v, r => .vector (v.rotate r)
  | .portable p, r => .portable (p.rotate r)

/-- `Transformable::flip` dispatched over the variants. -/
def DocumentContent.flip : DocumentContent → FlipDirection → DocumentContent
  | .raster d, dir => .raster (d.flip dir)
  | .vector v, dir => .vector (v.flip dir)
  | .portable p, dir => .portable (p.flip dir)

/-- The reported (displayable) dimensions of each variant:
`RasterDocument::dimensions` returns the current buffer dimensions,
`VectorDocument::dimensions` and the paginated variant return their
rendered `width`/`height` fields. -/
def DocumentContent.dimensions : DocumentContent → Nat × Nat
  | .raster d => d.dimensions
  | .vector v => (v.width, v.height)
  | .portable p => (p.width, p.height)

-- ============================================================================
-- High-level transform operations (src/domain/document/operations/transform.rs)
-- ============================================================================

/-- Rust `f32::round`: round half away from zero, as an integer. -/
def rustRound (q : ℚ) : Int :=
  if 0 ≤ q then ⌊q + 1 / 2⌋ else -⌊-q + 1 / 2⌋

/-- `rotate_document_cw` (transform.rs lines 153-175): advance the rotation
mode; a fine-angle state is snapped to the nearest multiple of 90° first.
`%` on `i16` is Rust's truncated remainder (`Int.tmod`). -/
def rotateDocumentCw (document : DocumentContent) : DocumentContent :=
  match document.transformState.rotation.rotateCw with
  | .standard rot => document.rotate rot
  | .fine deg =>
      let normalized := (rustRound (deg / 90) * 90).tmod 360
      let rot :=
        if normalized = 0 then Rotation.none
        else if normalized = 90 then Rotation.cw90
        else if normalized = 180 then Rotation.cw180
        else if normalized = 270 then Rotation.cw270
        else Rotation.none
      document.rotate rot

/-- `rotate_document_ccw` (transform.rs lines 189-211). -/
def rotateDocumentCcw (document : DocumentContent) : DocumentContent :=
  match document.transformState.rotation.rotateCcw with
  | .standard rot => document.rotate rot
  | .fine deg =>
      let normalized := (rustRound (deg / 90) * 90 + 360).tmod 360
      let rot :=
        if normalized = 0 then Rotation.none
        else if normalized = 90 then Rotation.cw90
        else if normalized = 180 then Rotation.cw180
        else if normalized = 270 then Rotation.cw270
        else Rotation.none
      document.rotate rot

/-- `dimensions_after_rotation` (transform.rs lines 113-118). -/
def dimensionsAfterRotation (width height : Nat) : Rotation → Nat × Nat
  | .none | .cw180 => (width, height)
  | .cw90 | .cw270 => (height, width)

-- ============================================================================
-- Fit-scale helpers (src/domain/document/operations/render.rs)
-- ============================================================================

/-- `calculate_fit_scale` (render.rs lines 53-62): scale factor fitting
`width × height` into `target_width × target_height`, `1.0` when either
source dimension is zero. -/
def calculateFitScale (width height targetWidth targetHeight : Nat) : ℚ :=
  if width = 0 ∨ height = 0 then 1
  else
    let widthScale := (targetWidth : ℚ) / (width : ℚ)
    let heightScale := (targetHeight : ℚ) / (height : ℚ)
    min widthScale heightScale

-- ============================================================================
-- Viewport (src/domain/viewport/viewport.rs)
-- ============================================================================

/-- `ViewMode`. -/
inductive ViewMode where
  | fit
  | actualSize
  | custom
deriving Repr, DecidableEq

/-- `Viewport`. -/
structure Viewport where
  view_mode : ViewMode
  pan_x : ℚ
  pan_y : ℚ
  scale : ℚ
  canvas_width : ℚ
  canvas_height : ℚ
  document_width : ℚ
  document_height : ℚ
deriving Repr, DecidableEq

/-- `Viewport::new` (viewport.rs lines 47-58). -/
def Viewport.new : Viewport :=
  { view_mode := .fit
    pan_x := 0
    pan_y := 0
    scale := 1
    canvas_width := 0
    canvas_height := 0
    document_width := 0
    document_height := 0 }

/-- `Viewport::calculate_fit_scale` (viewport.rs lines 173-182). -/
def Viewport.calculateFitScale (v : Viewport) : ℚ :=
  if v.document_width = 0 ∨ v.document_height = 0 then 1
  else
    let widthScale := v.canvas_width / v.document_width
    let heightScale := v.canvas_height / v.document_height
    min widthScale heightScale

/-- `Viewport::update_scale_if_fit` (viewport.rs lines 185-189). -/
def Viewport.updateScaleIfFit (v : Viewport) : Viewport :=
  if v.view_mode = .fit then { v with scale := v.calculateFitScale } else v

/-- `Viewport::set_canvas_size` (viewport.rs lines 61-65). -/
def Viewport.setCanvasSize (v : Viewport) (width height : ℚ) : Viewport :=
  Viewport.updateScaleIfFit { v with canvas_width := width, canvas_height := height }

/-- `Viewport::set_document_size` (viewport.rs lines 68-72). -/
def Viewport.setDocumentSize (v : Viewport) (width height : ℚ) : Viewport :=
  Viewport.updateScaleIfFit { v with document_width := width, document_height := height }

/-- `Viewport::scaled_document_size` (viewport.rs lines 164-169). -/
def Viewport.scaledDocumentSize (v : Viewport) : ℚ × ℚ :=
  (v.document_width * v.scale, v.document_height * v.scale)

/-- `Viewport::screen_to_document` (viewport.rs lines 193-205). -/
def Viewport.screenToDocument (v : Viewport) (screenX screenY : ℚ) : ℚ × ℚ :=
  let scaled := v.scaledDocumentSize
  let docX := (v.canvas_width - scaled.1) / 2 + v.pan_x
  let docY := (v.canvas_height - scaled.2) / 2 + v.pan_y
  let relX := screenX - docX
  let relY := screenY - docY
  (relX / v.scale, relY / v.scale)

/-- `Viewport::document_to_screen` (viewport.rs lines 209-220). -/
def Viewport.documentToScreen (v : Viewport) (docX docY : ℚ) : ℚ × ℚ :=
  let scaled := v.scaledDocumentSize
  let offsetX := (v.canvas_width - scaled.1) / 2 + v.pan_x
  let offsetY := (v.canvas_height - scaled.2) / 2 + v.pan_y
  (offsetX + docX * v.scale, offsetY + docY * v.scale)

-- ============================================================================
-- Crop mapper (src/application/commands/crop_document.rs)
-- ============================================================================

/-- `iced::Size` over the rational model of `f32`. -/
structure QSize where
  width : ℚ
  height : ℚ
deriving Repr, DecidableEq

/-- `iced::Vector`. -/
structure QVector where
  x : ℚ
  y : ℚ
deriving Repr, DecidableEq

/-- `iced::ContentFit` (only `Contain` is distinguished by the mapper). -/
inductive ContentFit where
  | contain
  | cover
  | fill
  | scaleDown
  | nofit
deriving Repr, DecidableEq

/-- `CropRegion` (src/ui/components/crop/selection.rs), a canvas-space
selection rectangle. -/
structure CropRegion where
  x : ℚ
  y : ℚ
  width : ℚ
  height : ℚ
deriving Repr, DecidableEq

/-- `CropRegion::as_tuple`. -/
def CropRegion.asTuple (r : CropRegion) : ℚ × ℚ × ℚ × ℚ :=
  (r.x, r.y, r.width, r.height)

/-- Rust `f32::round()` followed by `as u32` for the non-negative values the
mapper produces (`as` saturates below zero). -/
def rustRoundToU32 (q : ℚ) : Nat :=
  if 0 ≤ q then (⌊q + 1 / 2⌋).toNat else 0

/-- `CropDocumentCommand::canvas_to_image_coords` (crop_document.rs lines
130-173): map a single canvas point into native pixel coordinates under the
content-fit policy. -/
def canvasToImageCoords (cx cy : ℚ) (canvasSize imageSize : QSize) (scale : ℚ)
    (offset : QVector) (contentFit : ContentFit) : ℚ × ℚ :=
  let display : ℚ × ℚ :=
    match contentFit with
    | .contain =>
        let aspect := imageSize.width / imageSize.height
        let canvasAspect := canvasSize.width / canvasSize.height
        if aspect > canvasAspect then
          (canvasSize.width, canvasSize.width / aspect)
        else
          (canvasSize.height * aspect, canvasSize.height)
    | _ => (imageSize.width, imageSize.height)
  let scaledW := display.1 * scale
  let scaledH := display.2 * scale
  let centerX := (canvasSize.width - scaledW) / 2
  let centerY := (canvasSize.height - scaledH) / 2
  let imgX := (cx - centerX - offset.x) / scale
  let imgY := (cy - centerY - offset.y) / scale
  (imgX / display.1 * imageSize.width, imgY / display.2 * imageSize.height)

/-- The clamped pixel-space rectangle `(img_x, img_y, img_w, img_h)` computed
by `canvas_rect_to_image_rect` (crop_document.rs lines 114-118) before
rounding: corners mapped, origin clamped into `[0, image_size]`, extent
floored at `1.0` and clamped to the remaining bounds. -/
def clampedImageRect (canvasRect : ℚ × ℚ × ℚ × ℚ) (canvasSize imageSize : QSize)
    (scale : ℚ) (offset : QVector) (contentFit : ContentFit) : ℚ × ℚ × ℚ × ℚ :=
  let cx := canvasRect.1
  let cy := canvasRect.2.1
  let cw := canvasRect.2.2.1
  let ch := canvasRect.2.2.2
  let p1 := canvasToImageCoords cx cy canvasSize imageSize scale offset contentFit
  let p2 := canvasToImageCoords (cx + cw) (cy + ch) canvasSize imageSize scale offset contentFit
  let imgX := min (max p1.1 0) imageSize.width
  let imgY := min (max p1.2 0) imageSize.height
  let imgW := min (max (p2.1 - p1.1) 1) (imageSize.width - imgX)
  let imgH := min (max (p2.2 - p1.2) 1) (imageSize.height - imgY)
  (imgX, imgY, imgW, imgH)

/-- `CropDocumentCommand::canvas_rect_to_image_rect` (crop_document.rs lines
80-127): reject a selection of canvas-space width or height `<= 1.0`,
otherwise map the two corners, clamp, round and return the pixel rectangle. -/
def canvasRectToImageRect (canvasRect : ℚ × ℚ × ℚ × ℚ) (canvasSize imageSize : QSize)
    (scale : ℚ) (offset : QVector) (contentFit : ContentFit) :
    Option (Nat × Nat × Nat × Nat) :=
  let cw := canvasRect.2.2.1
  let ch := canvasRect.2.2.2
  if cw ≤ 1 ∨ ch ≤ 1 then none
  else
    let r := clampedImageRect canvasRect canvasSize imageSize scale offset contentFit
    some (rustRoundToU32 r.1, rustRoundToU32 r.2.1,
          rustRoundToU32 r.2.2.1, rustRoundToU32 r.2.2.2)

/-- `CropDocumentCommand` (pixel-space crop request). -/
structure CropDocumentCommand where
  x : Nat
  y : Nat
  width : Nat
  height : Nat
deriving Repr, DecidableEq

/-- `CropDocumentCommand::from_canvas_selection` (crop_document.rs lines
48-74): map the canvas selection with `ContentFit::Contain`; a `None` from
the mapper becomes the error string `"Invalid crop region"`. -/
def fromCanvasSelection (cropRegion : CropRegion) (canvasSize imageSize : QSize)
    (scale : ℚ) (panOffset : QVector) : Except String CropDocumentCommand :=
  match canvasRectToImageRect cropRegion.asTuple canvasSize imageSize scale panOffset
      .contain with
  | none => .error "Invalid crop region"
  | some r => .ok ⟨r.1, r.2.1, r.2.2.1, r.2.2.2⟩

-- ============================================================================
-- DocumentManager (src/application/document_manager.rs) and command execution
-- ============================================================================

/-- `DocumentManager` restricted to the state the crop command touches: the
lazily held current document. -/
structure DocumentManager where
  current_document : Option DocumentContent

/-- `CropDocumentCommand::execute` (crop_document.rs lines 184-204).  The
Rust method takes `&mut DocumentManager` and returns `DocResult<()>`
(`anyhow::Result`, i.e. an untyped error); the embedding returns the manager
after the call together with the result, the error modelled as the anyhow
message string. -/
def CropDocumentCommand.execute (cmd : CropDocumentCommand) (manager : DocumentManager) :
    DocumentManager × Except String Unit :=
  match manager.current_document with
  | none => (manager, .error "No document open")
  | some doc =>
      if doc.kind ≠ DocumentKind.raster then
        (manager, .error "Crop operation is only supported for raster images")
      else
        match doc with
        | .raster raster =>
            let result := raster.crop cmd.x cmd.y cmd.width cmd.height
            match result.2 with
            | .error e => ({ current_document := some (.raster result.1) },
                           .error s!"Crop failed: {e}")
            | .ok _ => ({ current_document := some (.raster result.1) }, .ok ())
        | _ => (manager, .ok ())

-- ============================================================================
-- DocumentCollection (src/domain/document/collection.rs)
-- ============================================================================

/-- `DocumentCollection`: paths (modelled as strings), current index, and the
lazily held loaded document. -/
structure DocumentCollection where
  paths : List String
  current_index : Option Nat
  current_document : Option DocumentContent

/-- `DocumentCollection::from_paths` (collection.rs lines 39-47). -/
def DocumentCollection.fromPaths (paths : List String) : DocumentCollection :=
  { paths := paths
    current_index := if paths.isEmpty then none else some 0
    current_document := none }

/-- `DocumentCollection::next` (collection.rs lines 104-112): returns the new
index on success, `none` at the end; mutation modelled by returning the
collection after the call. -/
def DocumentCollection.next (c : DocumentCollection) : DocumentCollection × Option Nat :=
  match c.current_index with
  | some current =>
      if current + 1 < c.paths.length then
        ({ c with current_index := some (current + 1), current_document := none },
         some (current + 1))
      else (c, none)
  | none => (c, none)

/-- `DocumentCollection::previous` (collection.rs lines 117-125). -/
def DocumentCollection.previous (c : DocumentCollection) : DocumentCollection × Option Nat :=
  match c.current_index with
  | some current =>
      if current > 0 then
        ({ c with current_index := some (current - 1), current_document := none },
         some (current - 1))
      else (c, none)
  | none => (c, none)

/-- `DocumentCollection::goto` (collection.rs lines 130-138). -/
def DocumentCollection.goto (c : DocumentCollection) (index : Nat) :
    DocumentCollection × Bool :=
  if index < c.paths.length then
    ({ c with current_index := some index, current_document := none }, true)
  else (c, false)

-- ============================================================================
-- Specification-support definitions
-- ============================================================================

/-- The pixel buffer of the raster variant (`None` for the other variants):
the object the spec's pixel-level equalities are about. -/
def DocumentContent.rasterBuffer : DocumentContent → Option Image
  | .raster d => some d.document
  | _ => none

/-- Pixel-buffer well-formedness of a document: the raster variant's buffer
holds exactly `width * height` pixels (true of every buffer the `image`
crate produces); nothing is required of the other variants. -/
def DocumentContent.wfPixels : DocumentContent → Prop
  | .raster d => d.document.wf
  | _ => True

/-- Render-cache consistency of `VectorDocument`, as established by
`VectorDocument::open` and maintained by every mutation in vector.rs: the
cached rasterization matches a render at the current scale and transform,
and the reported `width`/`height` are its dimensions. -/
def VectorDocument.wfRender (v : VectorDocument) : Prop :=
  v.rendered = renderDocument v.scene v.native_width v.native_height v.current_scale v.transform
    ∧ v.width = v.rendered.width ∧ v.height = v.rendered.height

/-- Render-cache consistency of the paginated variant (same shape as
`VectorDocument.wfRender`). -/
def PortableDocument.wfRender (p : PortableDocument) : Prop :=
  p.rendered = renderDocument (p.pageScene p.current_page) p.native_width p.native_height
      p.current_scale p.transform
    ∧ p.width = p.rendered.width ∧ p.height = p.rendered.height

/-- Render-cache consistency of a document (trivial for raster, whose
reported dimensions are read directly off the buffer). -/
def DocumentContent.wfRender : DocumentContent → Prop
  | .raster _ => True
  | .vector v => v.wfRender
  | .portable p => p.wfRender

/-- The fields `RasterDocument::open` derives from a freshly decoded image
(raster.rs lines 37-51): native dimensions are the buffer's, the transform
state is the identity, the handle is generated from the buffer. -/
def mkRasterDocument (img : Image) : RasterDocument :=
  { document := img
    native_width := img.width
    native_height := img.height
    transform := TransformState.default
    handle := createImageHandleFromImage img
    fine_rotation_angle := 0
    interpolation_quality := .balanced }

/-- A concrete 2×3 test image. -/
def sampleImage2x3 : Image := ⟨2, 3, [10, 11, 20, 21, 30, 31]⟩

/-- A concrete 100×100 raster document. -/
def sampleRaster100 : RasterDocument :=
  mkRasterDocument ⟨100, 100, List.replicate 10000 0⟩

/-- A concrete single-page paginated document. -/
def samplePortable : PortableDocument :=
  { pageScene := fun _ _ _ _ => 0
    page_count := 1
    current_page := 0
    native_width := 1
    native_height := 1
    current_scale := 1
    transform := TransformState.default
    rendered := mkImage 1 1 (fun _ _ => 0)
    handle := createImageHandleFromImage (mkImage 1 1 (fun _ _ => 0))
    width := 1
    height := 1 }

-- ============================================================================
-- Helper lemmas about the image model
-- ============================================================================

theorem mkImage_width (w h : Nat) (f : Nat → Nat → Pixel) : (mkImage w h f).width = w := rfl

theorem mkImage_height (w h : Nat) (f : Nat → Nat → Pixel) : (mkImage w h f).height = h := rfl

theorem mkImage_wf (w h : Nat) (f : Nat → Nat → Pixel) : (mkImage w h f).wf := by
  simp [mkImage, Image.wf]

theorem mkImage_pixel (w h : Nat) (f : Nat → Nat → Pixel) (x y : Nat)
    (hx : x < w) (hy : y < h) : (mkImage w h f).pixel x y = f x y := by
  have hw : 0 < w := Nat.pos_of_ne_zero (by omega)
  have hidx : y * w + x < w * h := by
    calc y * w + x < y * w + w := by omega
    _ = (y + 1) * w := by ring
    _ ≤ h * w := Nat.mul_le_mul_right w (by omega)
    _ = w * h := Nat.mul_comm h w
  have hmod : (y * w + x) % w = x := by
    rw [Nat.add_comm, Nat.add_mul_mod_self_right, Nat.mod_eq_of_lt hx]
  have hdiv : (y * w + x) / w = y := by
    rw [Nat.add_comm, Nat.add_mul_div_right x y hw, Nat.div_eq_of_lt hx, Nat.zero_add]
  show (mkImage w h f).data.getD (y * (mkImage w h f).width + x) 0 = f x y
  rw [mkImage_width]
  show ((List.range (w * h)).map (fun i => f (i % w) (i / w))).getD (y * w + x) 0 = f x y
  rw [List.getD_eq_getElem?_getD, List.getElem?_map, List.getElem?_range hidx]
  simp [hmod, hdiv]

theorem mkImage_congr (w h : Nat) (f g : Nat → Nat → Pixel)
    (hfg : ∀ x, x < w → ∀ y, y < h → f x y = g x y) : mkImage w h f = mkImage w h g := by
  unfold mkImage
  refine congrArg _ (List.map_congr_left ?_)
  intro i hi
  have hi' : i < w * h := List.mem_range.mp hi
  have hw : 0 < w := by
    rcases Nat.eq_zero_or_pos w with h0 | h0
    · subst h0; simp at hi'
    · exact h0
  exact hfg (i % w) (Nat.mod_lt i hw) (i / w)
    ((Nat.div_lt_iff_lt_mul hw).mpr (by rw [Nat.mul_comm w h] at hi'; exact hi'))

theorem mkImage_pixel_self (img : Image) (h : img.wf) :
    mkImage img.width img.height img.pixel = img := by
  rcases img with ⟨w, hh, data⟩
  have hlen : data.length = w * hh := h
  unfold mkImage
  simp only [Image.mk.injEq, true_and]
  apply List.ext_getElem
  · simp [hlen]
  · intro i h1 h2
    simp only [List.getElem_map, List.getElem_range]
    show Image.pixel ⟨w, hh, data⟩ (i % w) (i / w) = data[i]
    unfold Image.pixel
    simp only
    have hiw : i / w * w + i % w = i := by
      rw [Nat.mul_comm, Nat.div_add_mod]
    rw [hiw, List.getD_eq_getElem?_getD, List.getElem?_eq_getElem h2]
    rfl

theorem flipHorizontal_flipHorizontal (img : Image) (h : img.wf) :
    flipHorizontal (flipHorizontal img) = img := by
  unfold flipHorizontal
  rw [mkImage_width, mkImage_height]
  have hc : mkImage img.width img.height
      (fun x y => (mkImage img.width img.height
        (fun x y => img.pixel (img.width - 1 - x) y)).pixel (img.width - 1 - x) y) =
      mkImage img.width img.height img.pixel := by
    apply mkImage_congr
    intro x hx y hy
    rw [mkImage_pixel _ _ _ _ _ (by omega) hy]
    congr 1
    omega
  rw [hc, mkImage_pixel_self img h]

theorem flipVertical_flipVertical (img : Image) (h : img.wf) :
    flipVertical (flipVertical img) = img := by
  unfold flipVertical
  rw [mkImage_width, mkImage_height]
  have hc : mkImage img.width img.height
      (fun x y => (mkImage img.width img.height
        (fun x y => img.pixel x (img.height - 1 - y))).pixel x (img.height - 1 - y)) =
      mkImage img.width img.height img.pixel := by
    apply mkImage_congr
    intro x hx y hy
    rw [mkImage_pixel _ _ _ _ _ hx (by omega)]
    congr 1
    omega
  rw [hc, mkImage_pixel_self img h]

theorem applyFlip_applyFlip (img : Image) (dir : FlipDirection) (h : img.wf) :
    applyFlip (applyFlip img dir) dir = img := by
  cases dir
  · exact flipHorizontal_flipHorizontal img h
  · exact flipVertical_flipVertical img h

theorem transformState_eta (t : TransformState) :
    ({ rotation := t.rotation, flip_h := t.flip_h, flip_v := t.flip_v } : TransformState) = t :=
  rfl

-- ============================================================================
-- Claim C1: viewport coordinate round-trip
-- ============================================================================

/-- Claim C1: for every Viewport state with `scale > 0` and any pan offset,
canvas size and document size, `screen_to_document` and `document_to_screen`
are mutual inverses on every point (floats modelled as exact rationals, which
is the claim's "within floating-point tolerance" idealization). -/
theorem viewport_screen_document_roundtrip (v : Viewport) (hs : 0 < v.scale)
    (px py sx sy : ℚ) :
    v.screenToDocument (v.documentToScreen px py).1 (v.documentToScreen px py).2 = (px, py) ∧
    v.documentToScreen (v.screenToDocument sx sy).1 (v.screenToDocument sx sy).2 = (sx, sy) := by
  have hne : v.scale ≠ 0 := ne_of_gt hs
  unfold Viewport.screenToDocument Viewport.documentToScreen Viewport.scaledDocumentSize
  simp only [Prod.mk.injEq]
  refine ⟨⟨?_, ?_⟩, ⟨?_, ?_⟩⟩ <;> field_simp <;> ring

/-- Witness for C1 at a concrete viewport (scale 2) and concrete points. -/
theorem viewport_screen_document_roundtrip_witness :
    (0 : ℚ) < (⟨.custom, 3, 4, 2, 800, 600, 100, 50⟩ : Viewport).scale ∧
    ((⟨.custom, 3, 4, 2, 800, 600, 100, 50⟩ : Viewport).screenToDocument
        ((⟨.custom, 3, 4, 2, 800, 600, 100, 50⟩ : Viewport).documentToScreen 7 9).1
        ((⟨.custom, 3, 4, 2, 800, 600, 100, 50⟩ : Viewport).documentToScreen 7 9).2 = (7, 9) ∧
      (⟨.custom, 3, 4, 2, 800, 600, 100, 50⟩ : Viewport).documentToScreen
        ((⟨.custom, 3, 4, 2, 800, 600, 100, 50⟩ : Viewport).screenToDocument 5 6).1
        ((⟨.custom, 3, 4, 2, 800, 600, 100, 50⟩ : Viewport).screenToDocument 5 6).2 = (5, 6)) :=
  ⟨by norm_num, viewport_screen_document_roundtrip _ (by norm_num) 7 9 5 6⟩

-- ============================================================================
-- Claim C10: fit-scale division-by-zero safety
-- ============================================================================

/-- Claim C10: with a zero source width or height, the fit-scale computation
returns `1.0` instead of dividing by zero, erroring, or returning `0` — both
for the standalone `calculate_fit_scale` helper and for
`Viewport::calculate_fit_scale`, in particular on a freshly constructed
Viewport (which is in Fit mode with document size zero). -/
theorem calculate_fit_scale_zero_safe (w h tw th : Nat) (v : Viewport)
    (hwh : w = 0 ∨ h = 0) (hv : v.document_width = 0 ∨ v.document_height = 0) :
    calculateFitScale w h tw th = 1 ∧
    v.calculateFitScale = 1 ∧
    Viewport.new.calculateFitScale = 1 ∧
    Viewport.new.view_mode = .fit := by
  refine ⟨?_, ?_, by norm_num [Viewport.new, Viewport.calculateFitScale], rfl⟩
  · unfold calculateFitScale
    rw [if_pos hwh]
  · unfold Viewport.calculateFitScale
    rw [if_pos hv]

/-- Witness for C10: zero width into the standalone helper, and the fresh
viewport for the method. -/
theorem calculate_fit_scale_zero_safe_witness :
    ((0 : Nat) = 0 ∨ (5 : Nat) = 0) ∧
    (Viewport.new.document_width = 0 ∨ Viewport.new.document_height = 0) ∧
    (calculateFitScale 0 5 7 8 = 1 ∧
      Viewport.new.calculateFitScale = 1 ∧
      Viewport.new.calculateFitScale = 1 ∧
      Viewport.new.view_mode = .fit) :=
  ⟨Or.inl rfl, Or.inl rfl,
    calculate_fit_scale_zero_safe 0 5 7 8 Viewport.new (Or.inl rfl) (Or.inl rfl)⟩

-- ============================================================================
-- Claim C2: the crop mapper's degeneracy gate
-- ============================================================================

/-- Claim C2, corrected.  The single degeneracy gate of
`canvas_rect_to_image_rect` is applied to the *canvas-space* selection
*before* the coordinate mapping: the mapper returns `None` exactly when the
selection's canvas width or height is `<= 1.0`; `from_canvas_selection`
turns that `None` into the error `"Invalid crop region"`.  After mapping,
the pixel-space width/height are clamped with a floor of `max(.., 1.0)` and
no post-clamp check exists. -/
theorem crop_mapper_canvas_gate (canvasRect : ℚ × ℚ × ℚ × ℚ) (canvasSize imageSize : QSize)
    (scale : ℚ) (offset : QVector) (contentFit : ContentFit) (region : CropRegion) :
    (canvasRectToImageRect canvasRect canvasSize imageSize scale offset contentFit = none ↔
      canvasRect.2.2.1 ≤ 1 ∨ canvasRect.2.2.2 ≤ 1) ∧
    (fromCanvasSelection region canvasSize imageSize scale offset = .error "Invalid crop region" ↔
      region.width ≤ 1 ∨ region.height ≤ 1) := by
  constructor
  · unfold canvasRectToImageRect
    dsimp only
    split_ifs with hgate <;> simp [hgate]
  · unfold fromCanvasSelection canvasRectToImageRect CropRegion.asTuple
    dsimp only
    split_ifs with hgate <;> simp [hgate]

set_option maxHeartbeats 2000000 in
/-- Counterexample to C2 as stated: a concrete input whose *mapped*
pixel-space region has width `1 <= 1` after clamping, yet the mapper
succeeds and produces a crop rectangle (the claim requires it to fail):
canvas 100×100, image 100×100, scale 10, no pan, canvas selection
`(2, 2, 3, 3)` maps to the clamped rectangle `(45.2, 45.2, 1, 1)` and the
mapper returns `Some (45, 45, 1, 1)`. -/
theorem crop_mapper_postclamp_gate_counterexample :
    (clampedImageRect (2, 2, 3, 3) ⟨100, 100⟩ ⟨100, 100⟩ 10 ⟨0, 0⟩ .contain).2.2.1 ≤ 1 ∧
    canvasRectToImageRect (2, 2, 3, 3) ⟨100, 100⟩ ⟨100, 100⟩ 10 ⟨0, 0⟩ .contain =
      some (45, 45, 1, 1) := by
  have hclamp : clampedImageRect (2, 2, 3, 3) ⟨100, 100⟩ ⟨100, 100⟩ 10 ⟨0, 0⟩ .contain =
      (226 / 5, 226 / 5, 1, 1) := by
    unfold clampedImageRect canvasToImageCoords
    norm_num [min_def, max_def]
  constructor
  · rw [hclamp]
  · unfold canvasRectToImageRect
    rw [hclamp]
    norm_num [rustRoundToU32]
    rfl

-- ============================================================================
-- Claim C9: collection navigation
-- ============================================================================

/-- Claim C9: a collection built from `[a, b, c]` starts at index 0;
`next()` then yields `Some 1`, `Some 2`, `None` (no wrap), and `previous()`
at index 0 yields `None`; moreover every successful index change through
`next`, `previous` or `goto` clears the lazily held loaded document. -/
theorem collection_navigation_spec (c : DocumentCollection) (i j : Nat) :
    ((DocumentCollection.fromPaths ["a", "b", "c"]).current_index = some 0 ∧
     ((DocumentCollection.fromPaths ["a", "b", "c"]).next).2 = some 1 ∧
     (((DocumentCollection.fromPaths ["a", "b", "c"]).next).1.next).2 = some 2 ∧
     ((((DocumentCollection.fromPaths ["a", "b", "c"]).next).1.next).1.next).2 = none ∧
     ((DocumentCollection.fromPaths ["a", "b", "c"]).previous).2 = none) ∧
    ((c.next).2 = some j → (c.next).1.current_document = none) ∧
    ((c.previous).2 = some j → (c.previous).1.current_document = none) ∧
    ((c.goto i).2 = true → (c.goto i).1.current_document = none) := by
  refine ⟨⟨rfl, rfl, rfl, rfl, rfl⟩, ?_, ?_, ?_⟩
  · intro hj
    obtain ⟨paths, idx, curdoc⟩ := c
    unfold DocumentCollection.next at hj ⊢
    rcases idx with _ | cur
    · simp at hj
    · dsimp only at hj ⊢
      split_ifs at hj ⊢ with hlt
      all_goals rfl
  · intro hj
    obtain ⟨paths, idx, curdoc⟩ := c
    unfold DocumentCollection.previous at hj ⊢
    rcases idx with _ | cur
    · simp at hj
    · dsimp only at hj ⊢
      split_ifs at hj ⊢ with hlt
      all_goals rfl
  · intro hb
    obtain ⟨paths, idx, curdoc⟩ := c
    unfold DocumentCollection.goto at hb ⊢
    dsimp only at hb ⊢
    split_ifs at hb ⊢ with hlt
    all_goals rfl

/-- Witness for C9: concrete successful `next`, `previous` and `goto` calls
each clear the loaded document. -/
theorem collection_navigation_spec_witness :
    (((⟨["a", "b"], some 0, none⟩ : DocumentCollection).next).2 = some 1 ∧
      ((⟨["a", "b"], some 0, none⟩ : DocumentCollection).next).1.current_document = none) ∧
    (((⟨["a", "b"], some 1, none⟩ : DocumentCollection).previous).2 = some 0 ∧
      ((⟨["a", "b"], some 1, none⟩ : DocumentCollection).previous).1.current_document = none) ∧
    (((⟨["a", "b"], some 0, none⟩ : DocumentCollection).goto 1).2 = true ∧
      ((⟨["a", "b"], some 0, none⟩ : DocumentCollection).goto 1).1.current_document = none) :=
  ⟨⟨rfl, (collection_navigation_spec ⟨["a", "b"], some 0, none⟩ 0 1).2.1 rfl⟩,
   ⟨rfl, (collection_navigation_spec ⟨["a", "b"], some 1, none⟩ 0 0).2.2.1 rfl⟩,
   ⟨rfl, (collection_navigation_spec ⟨["a", "b"], some 0, none⟩ 1 0).2.2.2 rfl⟩⟩

-- ============================================================================
-- Claim C3: out-of-bounds crop is rejected atomically
-- ============================================================================

/-- Counterexample to C3 as stated: the crop validation compares against the
*current* buffer dimensions, not the *native* dimensions.  After rotating a
2×3 raster by 90° the buffer is 3×2 while `native_width` is still 2, and
`crop(2, 0, 1, 1)` — whose `x = 2 >= native_width` puts the region fully
outside the native bounds in the claim's sense — succeeds instead of
failing. -/
theorem raster_crop_native_bounds_counterexample :
    ((mkRasterDocument sampleImage2x3).rotate .cw90).native_width = 2 ∧
    2 ≥ ((mkRasterDocument sampleImage2x3).rotate .cw90).native_width ∧
    (((mkRasterDocument sampleImage2x3).rotate .cw90).crop 2 0 1 1).2 = .ok () := by
  refine ⟨rfl, by decide, rfl⟩

/-- Claim C3, amended: crop with `x >= width` or `y >= height` of the
*current* pixel buffer (which equals the native size unless a transform has
changed the buffer) fails with the invalid-region error and returns the
document completely unchanged — buffer, reported dimensions, native
dimensions and transform state included (atomic failure). -/
theorem raster_crop_out_of_bounds_atomic (d : RasterDocument) (x y w h : Nat)
    (hxy : x ≥ d.document.width ∨ y ≥ d.document.height) :
    d.crop x y w h =
      (d, .error (cropOutOfBoundsMsg x y d.document.width d.document.height)) := by
  simp only [RasterDocument.crop]
  rw [if_pos hxy]

/-- Witness for C3 (amended) at a concrete document: `crop(5, 0, ..)` on the
2×3 sample. -/
theorem raster_crop_out_of_bounds_atomic_witness :
    (5 ≥ (mkRasterDocument sampleImage2x3).document.width ∨
      0 ≥ (mkRasterDocument sampleImage2x3).document.height) ∧
    (mkRasterDocument sampleImage2x3).crop 5 0 1 1 =
      (mkRasterDocument sampleImage2x3, .error (cropOutOfBoundsMsg 5 0 2 3)) :=
  ⟨Or.inl (by decide),
    raster_crop_out_of_bounds_atomic (mkRasterDocument sampleImage2x3) 5 0 1 1
      (Or.inl (by decide))⟩

-- ============================================================================
-- Claim C4: successful crop replaces buffer, resets transforms
-- ============================================================================

/-- Claim C4: every successful crop replaces the pixel buffer with the
clamped sub-region, sets the native dimensions to the clamped crop
dimensions, resets the transform state (rotation, both flip flags and the
fine-rotation angle) to the identity, and regenerates the display handle
from the new buffer. -/
theorem raster_crop_success_resets_state (d : RasterDocument) (x y w h : Nat)
    (hok : (d.crop x y w h).2 = .ok ()) :
    (d.crop x y w h).1.document =
      cropImm d.document x y (min w (d.document.width - x)) (min h (d.document.height - y)) ∧
    (d.crop x y w h).1.native_width = min w (d.document.width - x) ∧
    (d.crop x y w h).1.native_height = min h (d.document.height - y) ∧
    (d.crop x y w h).1.transform = TransformState.default ∧
    (d.crop x y w h).1.fine_rotation_angle = 0 ∧
    (d.crop x y w h).1.handle = createImageHandleFromImage ((d.crop x y w h).1.document) := by
  simp only [RasterDocument.crop] at hok ⊢
  split_ifs at hok ⊢ with h1 h2
  all_goals exact ⟨rfl, rfl, rfl, rfl, rfl, rfl⟩

/-- Witness for C4: a concrete successful 1×2 crop of the 2×3 sample. -/
theorem raster_crop_success_resets_state_witness :
    ((mkRasterDocument sampleImage2x3).crop 0 1 1 2).2 = .ok () ∧
    (((mkRasterDocument sampleImage2x3).crop 0 1 1 2).1.document =
        cropImm (mkRasterDocument sampleImage2x3).document 0 1
          (min 1 ((mkRasterDocument sampleImage2x3).document.width - 0))
          (min 2 ((mkRasterDocument sampleImage2x3).document.height - 1)) ∧
      ((mkRasterDocument sampleImage2x3).crop 0 1 1 2).1.native_width = 1 ∧
      ((mkRasterDocument sampleImage2x3).crop 0 1 1 2).1.native_height = 2 ∧
      ((mkRasterDocument sampleImage2x3).crop 0 1 1 2).1.transform = TransformState.default ∧
      ((mkRasterDocument sampleImage2x3).crop 0 1 1 2).1.fine_rotation_angle = 0 ∧
      ((mkRasterDocument sampleImage2x3).crop 0 1 1 2).1.handle =
        createImageHandleFromImage (((mkRasterDocument sampleImage2x3).crop 0 1 1 2).1.document)) :=
  ⟨rfl, raster_crop_success_resets_state (mkRasterDocument sampleImage2x3) 0 1 1 2 rfl⟩

-- ============================================================================
-- Claim C5: partially out-of-bounds crop clamps instead of failing
-- ============================================================================

/-- Claim C5: a crop whose origin is inside the current image but whose
extent overruns the bounds is clamped, not rejected: with `x < width`,
`y < height` and positive requested extent, the crop succeeds, the committed
width is `min(w, width - x)`, the committed height is `min(h, height - y)`,
and the buffer becomes exactly that clamped sub-region. -/
theorem raster_crop_clamps_extent (d : RasterDocument) (x y w h : Nat)
    (hx : x < d.document.width) (hy : y < d.document.height)
    (hw : 0 < w) (hh : 0 < h) :
    (d.crop x y w h).2 = .ok () ∧
    (d.crop x y w h).1.native_width = min w (d.document.width - x) ∧
    (d.crop x y w h).1.native_height = min h (d.document.height - y) ∧
    (d.crop x y w h).1.document =
      cropImm d.document x y (min w (d.document.width - x)) (min h (d.document.height - y)) := by
  simp only [RasterDocument.crop]
  have h1 : ¬(x ≥ d.document.width ∨ y ≥ d.document.height) := by omega
  rw [if_neg h1]
  have h2 : ¬(min w (d.document.width - x) = 0 ∨ min h (d.document.height - y) = 0) := by
    omega
  rw [if_neg h2]
  exact ⟨rfl, rfl, rfl, rfl⟩

/-- Witness for C5, the claim's own instance: on a 100×100 image,
`crop(90, 90, 50, 50)` succeeds and commits a 10×10 region. -/
theorem raster_crop_clamps_extent_witness :
    90 < sampleRaster100.document.width ∧
    90 < sampleRaster100.document.height ∧
    (0 : Nat) < 50 ∧
    (sampleRaster100.crop 90 90 50 50).2 = .ok () ∧
    (sampleRaster100.crop 90 90 50 50).1.native_width = 10 ∧
    (sampleRaster100.crop 90 90 50 50).1.native_height = 10 := by
  have hc := raster_crop_clamps_extent sampleRaster100 90 90 50 50
    (by decide) (by decide) (by decide) (by decide)
  refine ⟨by decide, by decide, by decide, hc.1, ?_, ?_⟩
  · rw [hc.2.1]; decide
  · rw [hc.2.2.1]; decide

-- ============================================================================
-- Helper lemmas for the rotation claims
-- ============================================================================

theorem rotate90_width (img : Image) : (rotate90 img).width = img.height := rfl

theorem rotate90_height (img : Image) : (rotate90 img).height = img.width := rfl

theorem rotate270_width (img : Image) : (rotate270 img).width = img.height := rfl

theorem rotate270_height (img : Image) : (rotate270 img).height = img.width := rfl

theorem rotateCw_four (r : Rotation) :
    r.rotateCw.rotateCw.rotateCw.rotateCw = r := by
  rcases r <;> rfl

theorem rotateCcw_four (r : Rotation) :
    r.rotateCcw.rotateCcw.rotateCcw.rotateCcw = r := by
  rcases r <;> rfl

-- ============================================================================
-- Claim C6: four rotations round-trip
-- ============================================================================

/-- Claim C6: for every document in a quantized rotation state (and whose
render cache is consistent), four consecutive `rotate_document_cw` calls
return both the transform state and the reported dimensions to their initial
values, and likewise four consecutive `rotate_document_ccw` calls — the
quantized rotation cycles through the four values with wraparound. -/
theorem rotate_four_roundtrip (c : DocumentContent) (r : Rotation)
    (hq : c.transformState.rotation = .standard r) (hwf : c.wfRender) :
    ((rotateDocumentCw (rotateDocumentCw (rotateDocumentCw (rotateDocumentCw c)))).transformState
        = c.transformState ∧
      (rotateDocumentCw (rotateDocumentCw (rotateDocumentCw (rotateDocumentCw c)))).dimensions
        = c.dimensions) ∧
    ((rotateDocumentCcw (rotateDocumentCcw (rotateDocumentCcw (rotateDocumentCcw c)))).transformState
        = c.transformState ∧
      (rotateDocumentCcw (rotateDocumentCcw (rotateDocumentCcw (rotateDocumentCcw c)))).dimensions
        = c.dimensions) := by
  rcases c with d | v | p
  · obtain ⟨doc, nw, nh, tr, hd, fra, iq⟩ := d
    obtain ⟨rotmode, fh, fv⟩ := tr
    dsimp only [DocumentContent.transformState] at hq
    subst hq
    rcases r <;>
      simp +decide [rotateDocumentCw, rotateDocumentCcw, DocumentContent.transformState,
        DocumentContent.rotate, DocumentContent.dimensions, RasterDocument.rotate,
        RasterDocument.dimensions, RotationMode.rotateCw, RotationMode.rotateCcw,
        Rotation.rotateCw, Rotation.rotateCcw, Rotation.toDegrees, applyRotation,
        rotate90_width, rotate90_height, rotate270_width, rotate270_height]
  · obtain ⟨scene, nw, nh, cs, tr, rend, hd, w, h⟩ := v
    obtain ⟨rotmode, fh, fv⟩ := tr
    dsimp only [DocumentContent.transformState] at hq
    subst hq
    obtain ⟨hr, hW, hH⟩ := hwf
    dsimp only at hr hW hH
    simp only [rotateDocumentCw, rotateDocumentCcw, DocumentContent.transformState,
      DocumentContent.rotate, DocumentContent.dimensions, VectorDocument.rotate,
      VectorDocument.rerender, RotationMode.rotateCw, RotationMode.rotateCcw,
      rotateCw_four, rotateCcw_four]
    rw [← hr]
    simp [hW, hH]
  · obtain ⟨pageScene, pc, cp, nw, nh, cs, tr, rend, hd, w, h⟩ := p
    obtain ⟨rotmode, fh, fv⟩ := tr
    dsimp only [DocumentContent.transformState] at hq
    subst hq
    obtain ⟨hr, hW, hH⟩ := hwf
    dsimp only at hr hW hH
    simp only [rotateDocumentCw, rotateDocumentCcw, DocumentContent.transformState,
      DocumentContent.rotate, DocumentContent.dimensions, PortableDocument.rotate,
      PortableDocument.rerender, RotationMode.rotateCw, RotationMode.rotateCcw,
      rotateCw_four, rotateCcw_four]
    rw [← hr]
    simp [hW, hH]

/-- Witness for C6 on a concrete raster document in the identity rotation
state. -/
theorem rotate_four_roundtrip_witness :
    (DocumentContent.raster (mkRasterDocument sampleImage2x3)).transformState.rotation =
      .standard .none ∧
    (DocumentContent.raster (mkRasterDocument sampleImage2x3)).wfRender ∧
    (((rotateDocumentCw (rotateDocumentCw (rotateDocumentCw (rotateDocumentCw
          (DocumentContent.raster (mkRasterDocument sampleImage2x3)))))).transformState =
        (DocumentContent.raster (mkRasterDocument sampleImage2x3)).transformState ∧
      (rotateDocumentCw (rotateDocumentCw (rotateDocumentCw (rotateDocumentCw
          (DocumentContent.raster (mkRasterDocument sampleImage2x3)))))).dimensions =
        (DocumentContent.raster (mkRasterDocument sampleImage2x3)).dimensions) ∧
      ((rotateDocumentCcw (rotateDocumentCcw (rotateDocumentCcw (rotateDocumentCcw
          (DocumentContent.raster (mkRasterDocument sampleImage2x3)))))).transformState =
        (DocumentContent.raster (mkRasterDocument sampleImage2x3)).transformState ∧
      (rotateDocumentCcw (rotateDocumentCcw (rotateDocumentCcw (rotateDocumentCcw
          (DocumentContent.raster (mkRasterDocument sampleImage2x3)))))).dimensions =
        (DocumentContent.raster (mkRasterDocument sampleImage2x3)).dimensions)) :=
  ⟨rfl, trivial,
    rotate_four_roundtrip (.raster (mkRasterDocument sampleImage2x3)) .none rfl trivial⟩

-- ============================================================================
-- Claim C7: flip twice is a no-op
-- ============================================================================

/-- Claim C7: for every document variant and either axis, flipping twice on
the same axis restores the transform state (the flip flag toggles back), and
for the raster variant the pixel buffer returns to pixel-level equality with
its content before the two flips. -/
theorem flip_twice_noop (c : DocumentContent) (dir : FlipDirection) (hwf : c.wfPixels) :
    ((c.flip dir).flip dir).transformState = c.transformState ∧
    ((c.flip dir).flip dir).rasterBuffer = c.rasterBuffer := by
  rcases c with d | v | p
  · have hbuf : applyFlip (applyFlip d.document dir) dir = d.document :=
      applyFlip_applyFlip d.document dir hwf
    cases dir <;>
      simp [DocumentContent.flip, RasterDocument.flip, DocumentContent.transformState,
        DocumentContent.rasterBuffer, hbuf]
  · cases dir <;>
      simp [DocumentContent.flip, VectorDocument.flip, VectorDocument.rerender,
        DocumentContent.transformState, DocumentContent.rasterBuffer]
  · cases dir <;>
      simp [DocumentContent.flip, PortableDocument.flip, PortableDocument.rerender,
        DocumentContent.transformState, DocumentContent.rasterBuffer]

/-- Witness for C7 on a concrete raster document and the horizontal axis. -/
theorem flip_twice_noop_witness :
    (DocumentContent.raster (mkRasterDocument sampleImage2x3)).wfPixels ∧
    ((((DocumentContent.raster (mkRasterDocument sampleImage2x3)).flip .horizontal).flip
          .horizontal).transformState =
        (DocumentContent.raster (mkRasterDocument sampleImage2x3)).transformState ∧
      (((DocumentContent.raster (mkRasterDocument sampleImage2x3)).flip .horizontal).flip
          .horizontal).rasterBuffer =
        (DocumentContent.raster (mkRasterDocument sampleImage2x3)).rasterBuffer) :=
  ⟨by show sampleImage2x3.wf; decide,
    flip_twice_noop (.raster (mkRasterDocument sampleImage2x3)) .horizontal
      (by show sampleImage2x3.wf; decide)⟩

-- ============================================================================
-- Claim C8: crop on a paginated document
-- ============================================================================

/-- Counterexample to C8 as stated: the crop command's failure on a
paginated document is the generic `anyhow` message string
`"Crop operation is only supported for raster images"` — a value of the same
untyped string-error shape the command uses for its generic failures (such
as `"No document open"`), with no distinct `UnsupportedOperation` error kind
anywhere in the code for a caller to match on. -/
theorem crop_paginated_error_kind_counterexample :
    (CropDocumentCommand.mk 0 0 5 5).execute ⟨some (.portable samplePortable)⟩ =
      (⟨some (.portable samplePortable)⟩,
        .error "Crop operation is only supported for raster images") ∧
    (CropDocumentCommand.mk 0 0 5 5).execute ⟨none⟩ =
      (⟨none⟩, .error "No document open") :=
  ⟨rfl, rfl⟩

/-- Claim C8, amended: crop on a non-raster (in particular paginated)
document fails — with the generic string error
`"Crop operation is only supported for raster images"` rather than a
distinct typed `UnsupportedOperation` kind — and the document manager is not
mutated. -/
theorem crop_paginated_fails_unmutated (cmd : CropDocumentCommand) (m : DocumentManager)
    (doc : DocumentContent) (hdoc : m.current_document = some doc)
    (hkind : doc.kind ≠ DocumentKind.raster) :
    cmd.execute m = (m, .error "Crop operation is only supported for raster images") := by
  simp only [CropDocumentCommand.execute, hdoc]
  rw [if_pos hkind]

/-- Witness for C8 (amended) on a concrete paginated document. -/
theorem crop_paginated_fails_unmutated_witness :
    ({ current_document := some (.portable samplePortable) } : DocumentManager).current_document
        = some (.portable samplePortable) ∧
    (DocumentContent.portable samplePortable).kind ≠ DocumentKind.raster ∧
    (CropDocumentCommand.mk 0 0 5 5).execute ⟨some (.portable samplePortable)⟩ =
      (⟨some (.portable samplePortable)⟩,
        .error "Crop operation is only supported for raster images") :=
  ⟨rfl, by decide,
    crop_paginated_fails_unmutated (CropDocumentCommand.mk 0 0 5 5)
      ⟨some (.portable samplePortable)⟩ (.portable samplePortable) rfl (by decide)⟩

end Noctua
